import Mathlib

/-!
Verification of the streaming-chat session controller of this repository
(`src/hooks/useApiStreamingChat.ts`).  The hook's React state
(`messages`, `isLoading`, `isConnecting`, `connectionError`, the
`currentStreamingMessagesRef` set of streaming message ids, the
`isStoppedRef` stop flag and `lastUserMessageRef`) is embedded as an
explicit `ChatState` record, and each event handler becomes a pure state
transformer.  Where the source calls `new Date()` / `Date.now()` the
current time is passed in as an explicit `Nat` parameter; where it calls
`generateId()` a fresh id is passed in as an explicit `String` parameter.
JavaScript string builtins used by the decode loop (`split('\n')`,
`startsWith`, `slice`, `trim`) are modelled by structurally recursive
functions over the character list so that concrete runs reduce in the
kernel.
-/

namespace StreamChat

/-- Model of the JavaScript string-or-default idiom `x || dflt`: both
`undefined` and the empty string are falsy and select the default. -/
def jsOr (o : Option String) (dflt : String) : String :=
  match o with
  | some s => if s = "" then dflt else s
  | none => dflt

/-- Model of JavaScript `String.prototype.split('\n')`, splitting on every
newline and keeping empty segments (so a trailing newline yields a final
empty segment), written as a structural recursion over the characters. -/
def splitNlAux : List Char → List Char → List String
  | [], cur => [String.mk cur.reverse]
  | c :: cs, cur =>
    if c = '\n' then String.mk cur.reverse :: splitNlAux cs []
    else splitNlAux cs (c :: cur)

/-- Split a string at newlines, JavaScript-`split('\n')` style. -/
def splitNl (s : String) : List String := splitNlAux s.data []

/-- Model of JavaScript `String.prototype.startsWith`. -/
def strStartsWith (s p : String) : Bool := p.data.isPrefixOf s.data

/-- Model of JavaScript `String.prototype.slice(n)` (drop the first `n`
characters). -/
def sliceFrom (s : String) (n : Nat) : String := String.mk (s.data.drop n)

/-- Model of JavaScript `String.prototype.trim()`: strip whitespace from
both ends. -/
def jsTrim (s : String) : String :=
  String.mk (((s.data.dropWhile Char.isWhitespace).reverse.dropWhile
    Char.isWhitespace).reverse)

/-- Message sender, from `MessageSender` in `src/types/chat.ts`. -/
inductive MessageSender where
  | user
  | assistant
  | system
deriving DecidableEq, Repr

/-- Message status, from `MessageStatus` in `src/types/chat.ts`. -/
inductive MessageStatus where
  | pending
  | sent
  | delivered
  | failed
deriving DecidableEq, Repr

/-- Message kind, from `MessageType` in `src/types/chat.ts`. -/
inductive MessageType where
  | text
  | code
  | image
  | file
  | system
  | tool_call
deriving DecidableEq, Repr

/-- Tool-call status.  The declared union in `src/types/chat.ts` is
`running | success | error`, but `stopStreaming` in the hook additionally
assigns the literal `'stop'`, so the embedded type carries it as well. -/
inductive ToolCallStatus where
  | running
  | success
  | error
  | stop
deriving DecidableEq, Repr

/-- Tool-call kind, from `ToolCallType` in `src/types/chat.ts`. -/
inductive ToolCallType where
  | file_operation
  | terminal_command
  | code_generation
  | api_request
  | search
  | analysis
  | web_search
  | web_content
  | other
deriving DecidableEq, Repr

/-- Tool-call payload, from `ToolCallDetails` in `src/types/chat.ts`.
Timestamps are `Nat` milliseconds; `duration` is `Int` because the source
computes it as a subtraction of clock readings.  The opaque
`Record<string, unknown>` fields `parameters`/`metadata` are modelled as
optional opaque strings; `icon` is never touched by the hook and is
omitted. -/
@[ext] structure ToolCallDetails where
  id : String
  name : String
  type : ToolCallType
  status : ToolCallStatus
  parameters : Option String := none
  result : Option String := none
  error : Option String := none
  duration : Option Int := none
  startTime : Option Nat := none
  endTime : Option Nat := none
  description : Option String := none
  metadata : Option String := none
deriving DecidableEq, Repr

/-- Message content, from `MessageContent` in `src/types/chat.ts`.  The
hook only ever populates the `text` and `tool_call` fields; the unused
optional `code`/`image`/`file` fields are omitted. -/
@[ext] structure MessageContent where
  text : Option String := none
  tool_call : Option ToolCallDetails := none
deriving DecidableEq, Repr

/-- Message record, from `Message` in `src/types/chat.ts` (the optional
`editable`/`deletable`/`metadata` fields are never set by the hook and are
omitted). -/
@[ext] structure Message where
  id : String
  sender : MessageSender
  type : MessageType
  content : MessageContent
  timestamp : Nat
  status : MessageStatus
deriving DecidableEq, Repr

/-- Payload of a `tool_call_start` event (`eventData.toolId`,
`eventData.toolName`, `eventData.message`); all fields may be absent. -/
structure ToolStartData where
  toolId : Option String := none
  toolName : Option String := none
  message : Option String := none
deriving DecidableEq, Repr

/-- Payload of a `tool_call_end` event.  The `status` field is an
arbitrary wire string, compared against the literals in the handler. -/
structure ToolEndData where
  toolId : String
  status : String
  result : Option String := none
  metadata : Option String := none
deriving DecidableEq, Repr

/-- Payload of a `text_chunk` event. -/
structure TextChunkData where
  messageId : String
  content : String
deriving DecidableEq, Repr

/-- Payload of a `message_complete` event. -/
structure CompleteData where
  messageId : String
  content : String
deriving DecidableEq, Repr

/-- Payload of an `error` event. -/
structure ErrorData where
  message : Option String := none
deriving DecidableEq, Repr

/-- The tagged union of the six wire event kinds (`StreamEvent` in
`useApiStreamingChat.ts`). -/
inductive StreamEvent where
  | tool_call_start (d : ToolStartData)
  | tool_call_end (d : ToolEndData)
  | text_chunk (d : TextChunkData)
  | message_complete (d : CompleteData)
  | session_end
  | error (d : ErrorData)
deriving DecidableEq, Repr

/-- The hook's observable state: React state plus the mutable refs. -/
@[ext] structure ChatState where
  messages : List Message
  isLoading : Bool
  isConnecting : Bool
  connectionError : Option String
  streamingIds : List String
  stopped : Bool
  lastUserMessage : String
deriving DecidableEq, Repr

/-- The empty initial state of the hook. -/
def initialState : ChatState :=
  { messages := []
    isLoading := false
    isConnecting := false
    connectionError := none
    streamingIds := []
    stopped := false
    lastUserMessage := "" }

/-- Tool-name-to-kind mapping, from `getToolType` in
`handleToolCallStart`. -/
def getToolType (toolName : String) : ToolCallType :=
  if toolName = "web_search" then .web_search
  else if toolName = "web_content" then .web_content
  else if toolName = "research_planner" then .analysis
  else if toolName = "llm_analysis" then .analysis
  else .other

/-- Handler for `tool_call_start`: unless stopped, appends a new
tool-call message with payload status `running` and message status
`delivered`.  `newMsgId` and `fallbackToolId` stand for the two
`generateId()` calls; `now` stands for `new Date()`. -/
def handleToolCallStart (s : ChatState) (d : ToolStartData)
    (newMsgId fallbackToolId : String) (now : Nat) : ChatState :=
  if s.stopped then s
  else
    let toolMessage : Message :=
      { id := newMsgId
        sender := .assistant
        type := .tool_call
        content :=
          { tool_call := some
              { id := jsOr d.toolId fallbackToolId,
                name := jsOr d.toolName "unknown",
                type := getToolType (jsOr d.toolName ""),
                status := .running,
                description := d.message,
                startTime := some now } }
        timestamp := now
        status := .delivered }
    { s with messages := s.messages ++ [toolMessage] }

/-- Per-message patch applied by `handleToolCallEnd`: a tool-call message
whose payload id matches the event's `toolId` has its payload status,
result, error, end time, duration and metadata overwritten. -/
def toolEndPatch (d : ToolEndData) (now : Nat) (msg : Message) : Message :=
  match msg.content.tool_call with
  | none => msg
  | some tc =>
    if msg.type = .tool_call ∧ tc.id = d.toolId then
      { msg with content :=
          { msg.content with
              tool_call := some
                { tc with
                  status := if d.status = "success" then .success else .error,
                  result := d.result,
                  error := if d.status = "error" then d.result else none,
                  endTime := some now,
                  duration :=
                    match tc.startTime with
                    | some st => some ((now : Int) - (st : Int))
                    | none => none,
                  metadata := d.metadata } } }
    else msg

/-- Handler for `tool_call_end`: unless stopped, maps `toolEndPatch` over
the message list. -/
def handleToolCallEnd (s : ChatState) (d : ToolEndData) (now : Nat) : ChatState :=
  if s.stopped then s
  else { s with messages := s.messages.map (toolEndPatch d now) }

/-- Per-message patch applied by the update branch of `handleTextChunk`:
the message with the event's id has its content replaced by a text-only
record whose text is the old text (empty when absent) plus the delta. -/
def chunkUpdatePatch (d : TextChunkData) (msg : Message) : Message :=
  if msg.id = d.messageId then
    { msg with content := { text := some (jsOr msg.content.text "" ++ d.content) } }
  else msg

/-- Handler for `text_chunk`: unless stopped, a first chunk for an id adds
the id to the streaming set and appends a fresh pending text message; a
later chunk appends the delta to the existing message's text. -/
def handleTextChunk (s : ChatState) (d : TextChunkData) (now : Nat) : ChatState :=
  if s.stopped then s
  else if d.messageId ∈ s.streamingIds then
    { s with messages := s.messages.map (chunkUpdatePatch d) }
  else
    let textMessage : Message :=
      { id := d.messageId
        sender := .assistant
        type := .text
        content := { text := some d.content }
        timestamp := now
        status := .pending }
    { s with
        streamingIds := s.streamingIds ++ [d.messageId]
        messages := s.messages ++ [textMessage] }

/-- Per-message patch applied by `handleMessageComplete`: the message with
the event's id has its content replaced by the full text and its status
set to `delivered`. -/
def completePatch (d : CompleteData) (msg : Message) : Message :=
  if msg.id = d.messageId then
    { msg with content := { text := some d.content }, status := .delivered }
  else msg

/-- Handler for `message_complete`: unless stopped, patches the message,
removes the id from the streaming set, and clears `isLoading` when the set
becomes empty. -/
def handleMessageComplete (s : ChatState) (d : CompleteData) : ChatState :=
  if s.stopped then s
  else
    let ids := s.streamingIds.filter (fun x => ¬ x = d.messageId)
    { s with
        messages := s.messages.map (completePatch d)
        streamingIds := ids
        isLoading := if ids.isEmpty then false else s.isLoading }

/-- Per-message patch applied by `handleError`: messages in the streaming
set are marked `failed`; nothing else changes. -/
def failPatch (ids : List String) (msg : Message) : Message :=
  if msg.id ∈ ids then { msg with status := .failed } else msg

/-- Handler for `error` events.  Note that, unlike the four handlers
above, it performs no stop-flag check.  It records the error message (or
the default), clears the loading and connecting flags, and — only when the
streaming set is non-empty — marks the streaming messages `failed` and
clears the set. -/
def handleError (s : ChatState) (d : ErrorData) : ChatState :=
  let s1 := { s with
      connectionError := some (jsOr d.message "连接出现错误")
      isLoading := false
      isConnecting := false }
  if s.streamingIds.isEmpty then s1
  else
    { s1 with
        messages := s.messages.map (failPatch s.streamingIds)
        streamingIds := [] }

/-- First patch pass of `stopStreaming`: a tool-call message whose payload
is still `running` gets payload status `stop`, the error string
`"用户停止了操作"`, and an end time. -/
def stopToolPatch (now : Nat) (msg : Message) : Message :=
  match msg.content.tool_call with
  | none => msg
  | some tc =>
    if msg.type = .tool_call ∧ tc.status = .running then
      { msg with content :=
          { tool_call := some
              { tc with
                status := .stop,
                error := some "用户停止了操作",
                endTime := some now } } }
    else msg

/-- Second patch pass of `stopStreaming`: messages whose id is in the
streaming set are marked `delivered`. -/
def stopDeliverPatch (ids : List String) (msg : Message) : Message :=
  if msg.id ∈ ids then { msg with status := .delivered } else msg

/-- The `stopStreaming` callback: sets the stop flag, patches running tool
calls to `stop`, marks streaming messages `delivered` and clears the set
(the second pass and the clear are guarded by the set being non-empty, as
in the source), and resets the three connection flags. -/
def stopStreaming (s : ChatState) (now : Nat) : ChatState :=
  let msgs1 := s.messages.map (stopToolPatch now)
  if s.streamingIds.isEmpty then
    { s with
        stopped := true
        messages := msgs1
        isLoading := false
        isConnecting := false
        connectionError := none }
  else
    { s with
        stopped := true
        messages := msgs1.map (stopDeliverPatch s.streamingIds)
        streamingIds := []
        isLoading := false
        isConnecting := false
        connectionError := none }

/-- Effect of the `[DONE]` sentinel branch of the decode loop: it clears
the loading flag and the streaming set, then returns. -/
def applyDoneSentinel (s : ChatState) : ChatState :=
  { s with isLoading := false, streamingIds := [] }

/-- The dispatch switch of the decode loop.  `tool_call_start` consumes
the two fresh ids; `session_end` inline-clears the loading flag and the
streaming set with no stop-flag check; `error` goes to `handleError`,
which also has no stop-flag check. -/
def dispatchEvent (s : ChatState) (e : StreamEvent)
    (newMsgId fallbackToolId : String) (now : Nat) : ChatState :=
  match e with
  | .tool_call_start d => handleToolCallStart s d newMsgId fallbackToolId now
  | .tool_call_end d => handleToolCallEnd s d now
  | .text_chunk d => handleTextChunk s d now
  | .message_complete d => handleMessageComplete s d
  | .session_end => { s with isLoading := false, streamingIds := [] }
  | .error d => handleError s d

/-- The `sendMessage` callback, up to the first transport suspension
point: a no-op when the trimmed content is empty or `isLoading` is true;
otherwise records the last user message, appends a `sent` user message,
and runs the synchronous prologue of `startEventStream` (stop flag reset,
`isConnecting` set, error slot cleared). -/
def sendMessage (s : ChatState) (content : String) (mtype : MessageType)
    (newId : String) (now : Nat) : ChatState :=
  if jsTrim content = "" ∨ s.isLoading then s
  else
    let userMessage : Message :=
      { id := newId
        sender := .user
        type := mtype
        content := { text := some content }
        timestamp := now
        status := .sent }
    { s with
        messages := s.messages ++ [userMessage]
        lastUserMessage := content
        stopped := false
        isConnecting := true
        connectionError := none }

/-- Whether an event makes the decode loop `return` after dispatch: in the
source switch, the `session_end` and `error` cases return from
`startEventStream`. -/
def isTerminalEvent : StreamEvent → Bool
  | .session_end => true
  | .error _ => true
  | _ => false

/-- One step of the per-line loop of `startEventStream`, parameterised by
`parse`, the model of `JSON.parse` composed with the switch's `type`
classification (`none` covers both a parse failure, caught and logged, and
an unrecognised `type`, which falls through the switch).  The accumulator
carries the events handed to dispatch so far and a flag recording that the
loop has returned (`[DONE]` sentinel, `session_end`, or `error`).  Lines
without the `"data: "` prefix are skipped; a prefixed line is sliced past
the prefix and trimmed before the sentinel check and the parse. -/
def processLine (parse : String → Option StreamEvent)
    (acc : List StreamEvent × Bool) (line : String) :
    List StreamEvent × Bool :=
  if acc.2 then acc
  else if strStartsWith line "data: " then
    let data := jsTrim (sliceFrom line 6)
    if data = "[DONE]" then (acc.1, true)
    else
      match parse data with
      | some e => (acc.1 ++ [e], isTerminalEvent e)
      | none => acc
  else acc

/-- Per-chunk processing of `startEventStream`: each decoded chunk is
split at newlines on its own — the source keeps no buffer of a trailing
partial line across reads — and the lines are fed to `processLine`. -/
def processChunk (parse : String → Option StreamEvent)
    (acc : List StreamEvent × Bool) (chunk : String) :
    List StreamEvent × Bool :=
  (splitNl chunk).foldl (processLine parse) acc

/-- The events the decode loop hands to dispatch for a list of chunk
reads. -/
def decodeChunks (parse : String → Option StreamEvent)
    (chunks : List String) : List StreamEvent :=
  (chunks.foldl (processChunk parse) ([], false)).1

/-- The events the decode loop hands to dispatch for a list of already
split lines. -/
def decodeLines (parse : String → Option StreamEvent)
    (lines : List String) : List StreamEvent :=
  (lines.foldl (processLine parse) ([], false)).1

/-- Fold a list of events, each paired with the two fresh ids and the
clock reading at its dispatch, through `dispatchEvent`. -/
def applyEvents (s : ChatState)
    (evs : List (StreamEvent × String × String × Nat)) : ChatState :=
  evs.foldl (fun st p => dispatchEvent st p.1 p.2.1 p.2.2.1 p.2.2.2) s

/-- Fold a sequence of `text_chunk` events for one message id, each delta
paired with its clock reading, through the dispatcher. -/
def applyChunks (s : ChatState) (m : String) (ds : List (String × Nat)) : ChatState :=
  ds.foldl (fun st p => dispatchEvent st (.text_chunk ⟨m, p.1⟩) "" "" p.2) s

section Helpers

/-- Mapping a function that fixes every member of a list is the
identity. -/
theorem map_self_of_fix {α : Type} (l : List α) (f : α → α)
    (h : ∀ a ∈ l, f a = a) : l.map f = l := by
  induction l with
  | nil => rfl
  | cons a l ih =>
    simp only [List.map_cons, List.mem_cons] at *
    exact congrArg₂ _ (h a (Or.inl rfl)) (ih fun b hb => h b (Or.inr hb))

/-- The two stop patches and the tool-end patch never change a message's
id. -/
theorem stopToolPatch_id (t : Nat) (m : Message) :
    (stopToolPatch t m).id = m.id := by
  unfold stopToolPatch
  cases m.content.tool_call with
  | none => rfl
  | some tc => by_cases hc : (m.type = .tool_call ∧ tc.status = .running) <;> simp [hc]

/-- The first stop pass never changes a message's kind. -/
theorem stopToolPatch_type (t : Nat) (m : Message) :
    (stopToolPatch t m).type = m.type := by
  unfold stopToolPatch
  cases m.content.tool_call with
  | none => rfl
  | some tc => by_cases hc : (m.type = .tool_call ∧ tc.status = .running) <;> simp [hc]

/-- The delivering pass of `stopStreaming` changes only the message-level
status. -/
theorem stopDeliverPatch_parts (ids : List String) (m : Message) :
    (stopDeliverPatch ids m).id = m.id ∧
    (stopDeliverPatch ids m).type = m.type ∧
    (stopDeliverPatch ids m).content = m.content := by
  unfold stopDeliverPatch
  by_cases hc : m.id ∈ ids <;> simp [hc]

/-- A message is free of a running tool payload when its payload, if any,
is not `running` or the message is not a tool call. -/
def noRunningTool (m : Message) : Prop :=
  ∀ tc, m.content.tool_call = some tc → ¬(m.type = .tool_call ∧ tc.status = .running)

/-- On a message with no running tool payload the first stop pass is the
identity. -/
theorem stopToolPatch_eq_self {m : Message} (h : noRunningTool m) (t : Nat) :
    stopToolPatch t m = m := by
  unfold stopToolPatch
  cases hc : m.content.tool_call with
  | none => rfl
  | some tc => simp [h tc hc]

/-- After the first stop pass no message carries a running tool
payload. -/
theorem noRunningTool_stopToolPatch (t : Nat) (m : Message) :
    noRunningTool (stopToolPatch t m) := by
  intro tc2 htc2 hrun
  rw [stopToolPatch_type t m] at hrun
  unfold stopToolPatch at htc2
  split at htc2
  case h_1 heq => rw [heq] at htc2; exact Option.noConfusion htc2
  case h_2 tc heq =>
    split at htc2
    case isTrue hcond =>
      simp only [Option.some.injEq] at htc2
      rw [← htc2] at hrun
      simp at hrun
    case isFalse hcond =>
      rw [heq] at htc2
      simp only [Option.some.injEq] at htc2
      rw [htc2] at hcond
      exact hcond hrun

/-- The delivering pass preserves freedom from running tool payloads. -/
theorem noRunningTool_stopDeliverPatch {m : Message} (h : noRunningTool m)
    (ids : List String) : noRunningTool (stopDeliverPatch ids m) := by
  intro tc htc
  have hp := stopDeliverPatch_parts ids m
  rw [hp.2.2] at htc
  rw [hp.2.1]
  exact h tc htc

end Helpers

section ClaimC2

/-- Probe event standing for a parsed wire event in the chunk-boundary
experiment. -/
def probeEvt : StreamEvent := .text_chunk ⟨"m1", "hi"⟩

/-- Concrete instance of the parse function (the model of `JSON.parse`
plus the switch's classification) recognising the single probe payload
`EVT`; every other data string fails to parse. -/
def parseProbe : String → Option StreamEvent :=
  fun s => if s = "EVT" then some probeEvt else none

/-- C2: the decode loop splits each chunk at newlines on its own and
keeps no buffer of a trailing partial line, so the decoded event sequence
is not independent of chunk boundaries: the byte stream `"data: EVT\n"`
yields one event when it arrives in a single chunk and no event at all
when the same bytes arrive as the two chunks `"data: E"` and `"VT\n"`. -/
theorem chunk_split_changes_decoded_events :
    decodeChunks parseProbe ["data: EVT\n"] = [probeEvt] ∧
    decodeChunks parseProbe ["data: E", "VT\n"] = [] ∧
    ("data: E" ++ "VT\n" : String) = "data: EVT\n" := by
  refine ⟨by decide, by decide, by decide⟩

end ClaimC2

section ClaimC3

/-- A stopped session state with an empty error slot, as `stopStreaming`
leaves it. -/
def stoppedStateC3 : ChatState := { initialState with stopped := true }

/-- C3 counterexample: after the stop flag is set, a dispatched
`error`-kind event is not discarded — `handleError` performs no stop-flag
check and overwrites the error slot. -/
theorem stopped_error_event_mutates_state :
    (dispatchEvent stoppedStateC3 (.error ⟨some "boom"⟩) "g" "t" 0).connectionError
      ≠ stoppedStateC3.connectionError ∧
    stoppedStateC3.stopped = true := by
  refine ⟨by decide, by decide⟩

/-- C3 (amended): after the stop flag is set, dispatched events of the
four kinds `tool_call_start`, `tool_call_end`, `text_chunk` and
`message_complete` are discarded without any state change — the flag is
checked at the top of each of these handlers — while a `session_end`
event still (unconditionally) clears the loading flag and the
streaming-id set; the `error` handler performs no stop-flag check at
all. -/
theorem stopped_discards_nonterminal_events (s : ChatState)
    (hstop : s.stopped = true) :
    (∀ d gid tid now, dispatchEvent s (.tool_call_start d) gid tid now = s) ∧
    (∀ d gid tid now, dispatchEvent s (.tool_call_end d) gid tid now = s) ∧
    (∀ d gid tid now, dispatchEvent s (.text_chunk d) gid tid now = s) ∧
    (∀ d gid tid now, dispatchEvent s (.message_complete d) gid tid now = s) ∧
    (∀ gid tid now, dispatchEvent s .session_end gid tid now
        = { s with isLoading := false, streamingIds := [] }) := by
  refine ⟨?_, ?_, ?_, ?_, ?_⟩ <;> intro _ _ _ <;>
    simp [dispatchEvent, handleToolCallStart, handleToolCallEnd,
      handleTextChunk, handleMessageComplete, hstop]

/-- Witness for the amended C3 theorem at a concrete stopped state and a
concrete event of each discarded kind. -/
theorem stopped_discards_nonterminal_events_witness :
    stoppedStateC3.stopped = true ∧
    dispatchEvent stoppedStateC3 (.text_chunk ⟨"m1", "He"⟩) "g" "t" 4
      = stoppedStateC3 :=
  ⟨by decide, (stopped_discards_nonterminal_events stoppedStateC3 (by decide)).2.2.1
    ⟨"m1", "He"⟩ "g" "t" 4⟩

end ClaimC3

section ClaimC5

/-- A tool-call message whose payload is still `running`. -/
def runningToolMsgC5 : Message :=
  { id := "msg1"
    sender := .assistant
    type := .tool_call
    content :=
      { tool_call := some
          { id := "t1", name := "web_search", type := .web_search,
            status := .running, startTime := some 2 } }
    timestamp := 2
    status := .delivered }

/-- A loading session holding one running tool call and no streaming text
message. -/
def errorStateC5 : ChatState :=
  { initialState with messages := [runningToolMsgC5], isLoading := true }

/-- C5 counterexample: an `error`-kind event does not finalize a
tool-call message that is still running — after `handleError` its payload
status is still `running` and its message status is still `delivered`,
not `failed`; only ids in the streaming set are marked failed, and tool
ids are never in that set. -/
theorem error_leaves_running_tool_unfailed :
    ((handleError errorStateC5 ⟨some "boom"⟩).messages.filterMap
        (fun m => m.content.tool_call)).map (fun tc => tc.status)
      = [.running] ∧
    (handleError errorStateC5 ⟨some "boom"⟩).messages.map Message.status
      = [.delivered] := by
  refine ⟨by decide, by decide⟩

/-- C5 (amended): dispatching an `error` event records the event's
message (or the default) in the single error slot, resets the loading and
connecting flags, marks exactly the messages whose ids are in the
streaming-id set as `failed` and clears that set; it never touches a
message's content, so a tool-call payload that is still `running` stays
`running`, and a message outside the streaming set is completely
unchanged. -/
theorem error_event_effect (s : ChatState) (d : ErrorData) :
    handleError s d = { s with
        connectionError := some (jsOr d.message "连接出现错误"),
        isLoading := false,
        isConnecting := false,
        messages := s.messages.map (failPatch s.streamingIds),
        streamingIds := [] } ∧
    (∀ m : Message, (failPatch s.streamingIds m).content = m.content) ∧
    (∀ m : Message, m.id ∉ s.streamingIds → failPatch s.streamingIds m = m) := by
  refine ⟨?_, ?_, ?_⟩
  · unfold handleError
    by_cases he : s.streamingIds.isEmpty
    · have hids : s.streamingIds = [] := by
        cases hl : s.streamingIds with
        | nil => rfl
        | cons a l => rw [hl] at he; simp [List.isEmpty] at he
      have hmap : s.messages.map (failPatch ([] : List String)) = s.messages := by
        refine map_self_of_fix _ _ (fun m _ => ?_)
        unfold failPatch
        simp
      simp [he, hids, hmap]
    · simp [he]
  · intro m
    unfold failPatch
    by_cases hc : m.id ∈ s.streamingIds <;> simp [hc]
  · intro m hm
    unfold failPatch
    simp [hm]

/-- Witness for the amended C5 theorem: on the concrete state with one
running tool call, the patch applied by `handleError` leaves the tool
message's content untouched. -/
theorem error_event_effect_witness :
    failPatch errorStateC5.streamingIds runningToolMsgC5 = runningToolMsgC5 :=
  (error_event_effect errorStateC5 ⟨some "boom"⟩).2.2 runningToolMsgC5 (by decide)

end ClaimC5

section ClaimC6

/-- A session in the `Connecting` phase: `isConnecting` is true and
`isLoading` is still false (the source only flips `isLoading` on after
the fetch resolves). -/
def connectingStateC6 : ChatState := { initialState with isConnecting := true }

/-- C6 counterexample: `sendMessage` only guards on blank input and
`isLoading`, so while the session is merely `Connecting` a second send is
not a no-op — it appends a new user message (and opens another
stream). -/
theorem send_during_connecting_not_noop :
    connectingStateC6.isConnecting = true ∧
    connectingStateC6.isLoading = false ∧
    (sendMessage connectingStateC6 "hi" .text "u1" 3).messages.length = 1 ∧
    connectingStateC6.messages.length = 0 := by
  refine ⟨by decide, by decide, by decide, by decide⟩

/-- C6 (amended): `sendMessage` is a no-op exactly while `isLoading` is
true (the `Streaming` phase) or when the trimmed content is empty; the
`Connecting` phase does not block it. -/
theorem send_noop_while_loading (s : ChatState) (c : String)
    (ty : MessageType) (nid : String) (t : Nat) (h : s.isLoading = true) :
    sendMessage s c ty nid t = s := by
  simp [sendMessage, h]

/-- Witness for the amended C6 theorem at a concrete loading state. -/
theorem send_noop_while_loading_witness :
    ({ initialState with isLoading := true } : ChatState).isLoading = true ∧
    sendMessage { initialState with isLoading := true } "hi" .text "u1" 3
      = { initialState with isLoading := true } :=
  ⟨by decide, send_noop_while_loading _ "hi" .text "u1" 3 (by decide)⟩

end ClaimC6

section ClaimC8

/-- C8: a data line whose payload fails to parse is dropped and does not
terminate the decode loop — three consecutive `data:`-prefixed lines
whose payloads respectively parse to an event, fail to parse, and parse
to an event hand exactly the two parsed events to dispatch, in order.
The statement is generic in the parse function (the model of `JSON.parse`
plus classification). -/
theorem malformed_line_resilience (parse : String → Option StreamEvent)
    (x1 x2 x3 : String) (e1 e2 : StreamEvent)
    (h1p : strStartsWith x1 "data: " = true)
    (h2p : strStartsWith x2 "data: " = true)
    (h3p : strStartsWith x3 "data: " = true)
    (h1d : ¬ jsTrim (sliceFrom x1 6) = "[DONE]")
    (h2d : ¬ jsTrim (sliceFrom x2 6) = "[DONE]")
    (h3d : ¬ jsTrim (sliceFrom x3 6) = "[DONE]")
    (h1 : parse (jsTrim (sliceFrom x1 6)) = some e1)
    (hterm : isTerminalEvent e1 = false)
    (h2 : parse (jsTrim (sliceFrom x2 6)) = none)
    (h3 : parse (jsTrim (sliceFrom x3 6)) = some e2) :
    decodeLines parse [x1, x2, x3] = [e1, e2] := by
  simp [decodeLines, processLine, h1p, h2p, h3p, h1, h2, h3, h1d, h2d, h3d, hterm]

/-- Concrete parse instance for the C8 witness, recognising the payloads
`one` and `two` and rejecting everything else (in particular the
malformed middle payload `oops`). -/
def parseLinesC8 : String → Option StreamEvent := fun s =>
  if s = "one" then some (.text_chunk ⟨"m1", "a"⟩)
  else if s = "two" then some (.message_complete ⟨"m1", "ab"⟩)
  else none

/-- Witness for C8 at a concrete three-line stream with a malformed
middle line. -/
theorem malformed_line_resilience_witness :
    decodeLines parseLinesC8 ["data: one", "data: oops", "data: two"]
      = [.text_chunk ⟨"m1", "a"⟩, .message_complete ⟨"m1", "ab"⟩] :=
  malformed_line_resilience parseLinesC8 "data: one" "data: oops" "data: two"
    (.text_chunk ⟨"m1", "a"⟩) (.message_complete ⟨"m1", "ab"⟩)
    (by decide) (by decide) (by decide) (by decide) (by decide) (by decide)
    (by decide) (by decide) (by decide) (by decide)

end ClaimC8

section ClaimC10

/-- C10: when the stream terminates normally — the `[DONE]` sentinel
branch or a `session_end` event — while a message id is still in the
streaming set, only the streaming set and the loading flag are reset; the
message list is untouched, so a partially streamed text message created
by a `text_chunk` keeps status `pending`. -/
theorem normal_termination_keeps_pending (s : ChatState) (d : TextChunkData)
    (t : Nat) (gid tid : String) (u : Nat)
    (hstop : s.stopped = false) (hm : d.messageId ∉ s.streamingIds) :
    dispatchEvent (handleTextChunk s d t) .session_end gid tid u
      = { handleTextChunk s d t with isLoading := false, streamingIds := [] } ∧
    applyDoneSentinel (handleTextChunk s d t)
      = { handleTextChunk s d t with isLoading := false, streamingIds := [] } ∧
    (handleTextChunk s d t).messages
      = s.messages ++ [{ id := d.messageId,
                         sender := .assistant,
                         type := .text,
                         content := { text := some d.content },
                         timestamp := t,
                         status := .pending }] ∧
    d.messageId ∈ (handleTextChunk s d t).streamingIds := by
  refine ⟨rfl, rfl, ?_, ?_⟩ <;> simp [handleTextChunk, hstop, hm]

/-- Witness for C10 on the empty initial state and a first chunk. -/
theorem normal_termination_keeps_pending_witness :
    initialState.stopped = false ∧
    (handleTextChunk initialState ⟨"m1", "He"⟩ 1).messages
      = [] ++ [{ id := "m1",
                 sender := .assistant,
                 type := .text,
                 content := { text := some "He" },
                 timestamp := 1,
                 status := .pending }] :=
  ⟨by decide, (normal_termination_keeps_pending initialState ⟨"m1", "He"⟩ 1 "g" "t" 2
      (by decide) (by decide)).2.2.1⟩

end ClaimC10

section ClaimC1

/-- The chunk-update patch never changes a message's id. -/
theorem chunkUpdatePatch_id (d : TextChunkData) (m : Message) :
    (chunkUpdatePatch d m).id = m.id := by
  unfold chunkUpdatePatch
  by_cases hc : m.id = d.messageId <;> simp [hc]

/-- The chunk-update patch leaves a message with a different id alone. -/
theorem chunkUpdatePatch_skip (d : TextChunkData) (m : Message)
    (h : ¬ m.id = d.messageId) : chunkUpdatePatch d m = m := by
  unfold chunkUpdatePatch
  simp [h]

/-- The completion patch leaves a message with a different id alone. -/
theorem completePatch_skip (d : CompleteData) (m : Message)
    (h : ¬ m.id = d.messageId) : completePatch d m = m := by
  unfold completePatch
  simp [h]

/-- Invariant of a run of `text_chunk` events for id `m` over a state
whose message list is a base (free of id `m`) plus one trailing message
with id `m` already in the streaming set: the base is untouched, the
trailing message keeps id `m`, the stop flag stays clear and `m` stays in
the streaming set. -/
theorem chunks_keep (m : String) (B : List Message)
    (hB : ∀ b ∈ B, b.id ≠ m) (ds : List (String × Nat)) :
    ∀ (st : ChatState) (msg0 : Message),
      st.stopped = false → m ∈ st.streamingIds →
      st.messages = B ++ [msg0] → msg0.id = m →
      ∃ msg1, (applyChunks st m ds).messages = B ++ [msg1] ∧ msg1.id = m ∧
        (applyChunks st m ds).stopped = false ∧
        m ∈ (applyChunks st m ds).streamingIds := by
  induction ds with
  | nil => intro st msg0 h1 h2 h3 h4; exact ⟨msg0, h3, h4, h1, h2⟩
  | cons p ds ih =>
    intro st msg0 h1 h2 h3 h4
    have hb : handleTextChunk st ⟨m, p.1⟩ p.2
        = { st with messages := st.messages.map (chunkUpdatePatch ⟨m, p.1⟩) } := by
      unfold handleTextChunk
      simp [h1, h2]
    have happ : applyChunks st m (p :: ds)
        = applyChunks (handleTextChunk st ⟨m, p.1⟩ p.2) m ds := rfl
    rw [happ]
    refine ih (handleTextChunk st ⟨m, p.1⟩ p.2) (chunkUpdatePatch ⟨m, p.1⟩ msg0)
      (by rw [hb]; exact h1) (by rw [hb]; exact h2) ?_
      (by rw [chunkUpdatePatch_id]; exact h4)
    rw [hb]
    show st.messages.map (chunkUpdatePatch ⟨m, p.1⟩) = _
    rw [h3, List.map_append]
    congr 1
    exact map_self_of_fix _ _ (fun b hbm => chunkUpdatePatch_skip ⟨m, p.1⟩ b (hB b hbm))

/-- C1: starting from a state that is not stopped and holds no message
with id `m`, applying a non-empty sequence of `text_chunk` events for `m`
followed by a `message_complete` for `m` with content `full` leaves
exactly one new message, whose text is `full` (the completion overwrites
the accumulated deltas rather than appending) and whose status is
`delivered`. -/
theorem delta_reconstruction (s : ChatState) (m full : String)
    (ds : List (String × Nat)) (hne : ds ≠ [])
    (hstop : s.stopped = false) (hm : m ∉ s.streamingIds)
    (hfresh : ∀ msg ∈ s.messages, msg.id ≠ m) :
    ∃ msg1, (handleMessageComplete (applyChunks s m ds) ⟨m, full⟩).messages
        = s.messages ++ [msg1] ∧ msg1.id = m ∧
      msg1.content.text = some full ∧ msg1.status = .delivered := by
  cases ds with
  | nil => exact absurd rfl hne
  | cons p ds2 =>
    have hs1 : handleTextChunk s ⟨m, p.1⟩ p.2
        = { s with
              streamingIds := s.streamingIds ++ [m],
              messages := s.messages
                ++ [{ id := m,
                      sender := .assistant,
                      type := .text,
                      content := { text := some p.1 },
                      timestamp := p.2,
                      status := .pending }] } := by
      unfold handleTextChunk
      simp [hstop, hm]
    obtain ⟨msg1, hmsgs, hid, hstop1, hmem⟩ :=
      chunks_keep m s.messages hfresh ds2 (handleTextChunk s ⟨m, p.1⟩ p.2)
        { id := m,
          sender := .assistant,
          type := .text,
          content := { text := some p.1 },
          timestamp := p.2,
          status := .pending }
        (by rw [hs1]; exact hstop) (by rw [hs1]; simp) (by rw [hs1]) rfl
    have happ : applyChunks s m (p :: ds2)
        = applyChunks (handleTextChunk s ⟨m, p.1⟩ p.2) m ds2 := rfl
    refine ⟨{ msg1 with content := { text := some full }, status := .delivered },
      ?_, hid, rfl, rfl⟩
    unfold handleMessageComplete
    rw [happ]
    simp only [hstop1, Bool.false_eq_true, if_false]
    show (applyChunks (handleTextChunk s ⟨m, p.1⟩ p.2) m ds2).messages.map
        (completePatch ⟨m, full⟩) = _
    rw [hmsgs, List.map_append]
    congr 1
    · exact map_self_of_fix _ _
        (fun b hbm => completePatch_skip ⟨m, full⟩ b (hfresh b hbm))
    · show [completePatch ⟨m, full⟩ msg1] = _
      unfold completePatch
      simp [hid]

/-- Witness for C1: two chunks `He` and `llo` followed by completion with
`Hello` on the empty initial state. -/
theorem delta_reconstruction_witness :
    ([("He", 1), ("llo", 2)] : List (String × Nat)) ≠ [] ∧
    ∃ msg1,
      (handleMessageComplete (applyChunks initialState "m1" [("He", 1), ("llo", 2)])
          ⟨"m1", "Hello"⟩).messages = initialState.messages ++ [msg1] ∧
      msg1.id = "m1" ∧ msg1.content.text = some "Hello" ∧
      msg1.status = .delivered :=
  ⟨by decide,
    delta_reconstruction initialState "m1" "Hello" [("He", 1), ("llo", 2)]
      (by decide) (by decide) (by decide) (by decide)⟩

end ClaimC1

section ClaimC4

/-- Tool payload fixture for C4: a running web search. -/
def runningTcC4 : ToolCallDetails :=
  { id := "t1", name := "web_search", type := .web_search,
    status := .running, startTime := some 2 }

/-- Message fixture for C4: a tool-call message whose payload is
`runningTcC4`. -/
def runningToolMsgC4 : Message :=
  { id := "msg1"
    sender := .assistant
    type := .tool_call
    content := { tool_call := some runningTcC4 }
    timestamp := 2
    status := .delivered }

/-- Session fixture for C4: loading, one running tool call, one streaming
text id. -/
def stopStateC4 : ChatState :=
  { initialState with
      messages := [runningToolMsgC4]
      streamingIds := ["m9"]
      isLoading := true }

/-- C4 counterexample: the error string `stopStreaming` writes into a
stopped tool call is the Chinese `"用户停止了操作"`, not
`"user stopped the stream"` (that English text is only the cancellation
reason passed to the reader). -/
theorem stop_error_string_is_chinese :
    ((stopStreaming stopStateC4 5).messages.filterMap
        (fun m => m.content.tool_call)).map (fun tc => tc.error)
      ≠ [some "user stopped the stream"] ∧
    ((stopStreaming stopStateC4 5).messages.filterMap
        (fun m => m.content.tool_call)).map
          (fun tc => (tc.status, tc.error, tc.endTime))
      = [(.stop, some "用户停止了操作", some 5)] := by
  refine ⟨by decide, by decide⟩

/-- C4 (amended): `stopStreaming` finalizes in-flight state — every
message whose id is in the streaming set comes out with status
`delivered`, every tool-call message whose payload was `running` comes
out with payload status `stop`, error string `"用户停止了操作"` and the
stop time as `endTime`, the streaming set is emptied, the stop flag is
set, and the loading/connecting flags and error slot are cleared. -/
theorem stop_finalizes (s : ChatState) (t : Nat) :
    (stopStreaming s t).stopped = true ∧
    (stopStreaming s t).streamingIds = [] ∧
    (stopStreaming s t).isLoading = false ∧
    (stopStreaming s t).isConnecting = false ∧
    (stopStreaming s t).connectionError = none ∧
    (stopStreaming s t).messages
      = s.messages.map (fun m => stopDeliverPatch s.streamingIds (stopToolPatch t m)) ∧
    (∀ m : Message, m.id ∈ s.streamingIds →
        (stopDeliverPatch s.streamingIds (stopToolPatch t m)).status = .delivered) ∧
    (∀ (m : Message) (tc : ToolCallDetails), m.type = .tool_call →
        m.content.tool_call = some tc → tc.status = .running →
        (stopDeliverPatch s.streamingIds (stopToolPatch t m)).content.tool_call
          = some { tc with
                   status := .stop,
                   error := some "用户停止了操作",
                   endTime := some t }) := by
  refine ⟨?_, ?_, ?_, ?_, ?_, ?_, ?_, ?_⟩
  · by_cases he : s.streamingIds.isEmpty <;> simp [stopStreaming, he]
  · by_cases he : s.streamingIds.isEmpty <;> simp [stopStreaming, he]
    exact List.isEmpty_iff.mp he
  · by_cases he : s.streamingIds.isEmpty <;> simp [stopStreaming, he]
  · by_cases he : s.streamingIds.isEmpty <;> simp [stopStreaming, he]
  · by_cases he : s.streamingIds.isEmpty <;> simp [stopStreaming, he]
  · by_cases he : s.streamingIds.isEmpty
    · have hids : s.streamingIds = [] := List.isEmpty_iff.mp he
      have hfun : (fun m => stopDeliverPatch s.streamingIds (stopToolPatch t m))
          = fun m => stopToolPatch t m := by
        funext m
        rw [hids]
        unfold stopDeliverPatch
        simp
      rw [hfun]
      simp [stopStreaming, he]
    · simp [stopStreaming, he, List.map_map, Function.comp]
  · intro m hmem
    unfold stopDeliverPatch
    rw [stopToolPatch_id]
    simp [hmem]
  · intro m tc hty htc hrun
    have htool : stopToolPatch t m
        = { m with content :=
              { tool_call := some
                  { tc with
                    status := .stop,
                    error := some "用户停止了操作",
                    endTime := some t } } } := by
      unfold stopToolPatch
      rw [htc]
      simp [hty, hrun]
    rw [(stopDeliverPatch_parts s.streamingIds (stopToolPatch t m)).2.2, htool]

/-- Witness for the amended C4 theorem: the concrete running tool call of
`stopStateC4` is patched to `stop` with the Chinese error string and end
time 5. -/
theorem stop_finalizes_witness :
    (stopDeliverPatch stopStateC4.streamingIds
        (stopToolPatch 5 runningToolMsgC4)).content.tool_call
      = some { runningTcC4 with
               status := .stop,
               error := some "用户停止了操作",
               endTime := some 5 } :=
  (stop_finalizes stopStateC4 5).2.2.2.2.2.2.2 runningToolMsgC4 runningTcC4
    rfl rfl rfl

end ClaimC4

section ClaimC7

/-- Tool payload fixture for C7: a successfully finished web search with
`endTime` already assigned. -/
def doneTcC7 : ToolCallDetails :=
  { id := "t1", name := "web_search", type := .web_search,
    status := .success, result := some "ok",
    startTime := some 2, endTime := some 5 }

/-- Message fixture for C7 wrapping `doneTcC7`. -/
def doneToolMsgC7 : Message :=
  { id := "msg1"
    sender := .assistant
    type := .tool_call
    content := { tool_call := some doneTcC7 }
    timestamp := 2
    status := .delivered }

/-- Session fixture for C7 holding the finished tool call. -/
def doneStateC7 : ChatState := { initialState with messages := [doneToolMsgC7] }

/-- C7 counterexample: `handleToolCallEnd` patches a matching tool call
with no status guard, so a second `tool_call_end` for the same tool id
moves an already-terminal payload from `success` to `error` and assigns
`endTime` a second time (5 becomes 9). -/
theorem toolcall_end_overwrites_terminal :
    ((handleToolCallEnd doneStateC7 ⟨"t1", "error", some "bad", none⟩ 9).messages.filterMap
        (fun m => m.content.tool_call)).map (fun tc => (tc.status, tc.endTime))
      = [(.error, some 9)] ∧
    (doneStateC7.messages.filterMap (fun m => m.content.tool_call)).map
        (fun tc => (tc.status, tc.endTime))
      = [(.success, some 5)] := by
  refine ⟨by decide, by decide⟩

/-- C7 (amended): a tool call's payload, once terminal, is preserved by
`stopStreaming` (both of its passes), by a `tool_call_end` for a
different tool id, and by `text_chunk`/`message_complete` patches for a
different message id; a `tool_call_end` carrying its tool id, however,
overwrites the payload unconditionally, always producing a terminal
status (`success` or `error`) and reassigning `endTime` — so the
forward-only, endedAt-exactly-once property holds exactly when each tool
id receives at most one `tool_call_end`. -/
theorem tool_terminal_preservation (ids : List String) (t now : Nat)
    (m : Message) (tc : ToolCallDetails)
    (hm : m.content.tool_call = some tc) (hterm : ¬ tc.status = .running) :
    stopToolPatch t m = m ∧
    (stopDeliverPatch ids m).content = m.content ∧
    (∀ d : ToolEndData, ¬ d.toolId = tc.id → toolEndPatch d now m = m) ∧
    (∀ d : TextChunkData, ¬ m.id = d.messageId → chunkUpdatePatch d m = m) ∧
    (∀ d : CompleteData, ¬ m.id = d.messageId → completePatch d m = m) ∧
    (∀ d : ToolEndData, m.type = .tool_call → d.toolId = tc.id →
        ∃ tc2, (toolEndPatch d now m).content.tool_call = some tc2 ∧
          (tc2.status = .success ∨ tc2.status = .error) ∧
          tc2.endTime = some now) := by
  refine ⟨?_, (stopDeliverPatch_parts ids m).2.2, ?_, ?_, ?_, ?_⟩
  · refine stopToolPatch_eq_self (fun tc2 htc2 hrun => ?_) t
    rw [hm] at htc2
    simp only [Option.some.injEq] at htc2
    rw [← htc2] at hrun
    exact hterm hrun.2
  · intro d hd
    unfold toolEndPatch
    rw [hm]
    have : ¬ (m.type = .tool_call ∧ tc.id = d.toolId) := by
      rintro ⟨-, hx⟩
      exact hd hx.symm
    simp [this]
  · intro d hd
    exact chunkUpdatePatch_skip d m hd
  · intro d hd
    exact completePatch_skip d m hd
  · intro d hty hid
    unfold toolEndPatch
    rw [hm]
    have hcond : m.type = .tool_call ∧ tc.id = d.toolId := ⟨hty, hid.symm⟩
    simp only [hcond, and_self, if_true]
    refine ⟨_, rfl, ?_, rfl⟩
    by_cases hsucc : d.status = "success" <;> simp [hsucc]

/-- Witness for the amended C7 theorem: the finished tool call of
`doneStateC7` is untouched by `stopStreaming`'s tool pass. -/
theorem tool_terminal_preservation_witness :
    stopToolPatch 3 doneToolMsgC7 = doneToolMsgC7 :=
  (tool_terminal_preservation [] 3 0 doneToolMsgC7 doneTcC7 rfl (by decide)).1

end ClaimC7

section ClaimC9

/-- After `stopStreaming` the streaming set is empty, the stop flag is
set, and the loading/connecting flags and error slot are cleared. -/
theorem stopStreaming_flags (s : ChatState) (t : Nat) :
    (stopStreaming s t).streamingIds.isEmpty = true ∧
    (stopStreaming s t).stopped = true ∧
    (stopStreaming s t).isLoading = false ∧
    (stopStreaming s t).isConnecting = false ∧
    (stopStreaming s t).connectionError = none := by
  by_cases he : s.streamingIds.isEmpty <;> simp [stopStreaming, he]

/-- After `stopStreaming` no message carries a running tool payload. -/
theorem stopStreaming_noRunningTool (s : ChatState) (t : Nat) :
    ∀ m ∈ (stopStreaming s t).messages, noRunningTool m := by
  intro m hm
  unfold stopStreaming at hm
  by_cases he : s.streamingIds.isEmpty
  · simp only [he, if_true] at hm
    obtain ⟨a, -, rfl⟩ := List.mem_map.mp hm
    exact noRunningTool_stopToolPatch t a
  · simp only [he, if_false] at hm
    obtain ⟨b, hb, rfl⟩ := List.mem_map.mp hm
    obtain ⟨a, -, rfl⟩ := List.mem_map.mp hb
    exact noRunningTool_stopDeliverPatch (noRunningTool_stopToolPatch t a) _

/-- A state that is already fully stopped — empty streaming set, stop
flag set, flags and error slot cleared, no running tool payload — is a
fixed point of `stopStreaming`. -/
theorem stopStreaming_fixed (s1 : ChatState) (t2 : Nat)
    (h1 : s1.streamingIds.isEmpty = true) (h2 : s1.stopped = true)
    (h3 : s1.isLoading = false) (h4 : s1.isConnecting = false)
    (h5 : s1.connectionError = none)
    (h6 : ∀ m ∈ s1.messages, noRunningTool m) :
    stopStreaming s1 t2 = s1 := by
  have hmap : s1.messages.map (stopToolPatch t2) = s1.messages :=
    map_self_of_fix _ _ (fun m hm => stopToolPatch_eq_self (h6 m hm) t2)
  unfold stopStreaming
  rw [if_pos h1, hmap]
  cases s1 with
  | mk messages isLoading isConnecting connectionError streamingIds stopped lastUserMessage =>
    simp at h2 h3 h4 h5
    simp [h2, h3, h4, h5]

/-- C9: `stopStreaming` is idempotent — a second call (at any later clock
reading) leaves the state exactly as the first call left it. -/
theorem stop_idempotent (s : ChatState) (t1 t2 : Nat) :
    stopStreaming (stopStreaming s t1) t2 = stopStreaming s t1 := by
  obtain ⟨h1, h2, h3, h4, h5⟩ := stopStreaming_flags s t1
  exact stopStreaming_fixed (stopStreaming s t1) t2 h1 h2 h3 h4 h5
    (stopStreaming_noRunningTool s t1)

end ClaimC9

end StreamChat
